import Mathlib

/-!
Verification of the SupNum grade-ingestion and academic-record engine.

Shallow embedding of the record engine of this repository:
`app/services/note_service.py` (promotion state machine, merge engine,
ranking/statistics, visibility projection) and `readFile.py` (row
extraction and cell normalization).

Modelling conventions, stated once:

* Spreadsheet / document cell values are modelled by `Value`:
  `Value.blank` stands for a missing cell, pandas `NaN` or Python `None`
  (all of which satisfy `pd.isna` / `is None`); `Value.num q` stands for a
  Python `int`/`float` carrying the rational `q`; `Value.text s` stands
  for a string cell.  Binary floating point is abstracted by `ℚ`.
* Academic years "YYYY-YYYY" (second year = first + 1, the form the code
  always receives and produces) are embedded as the starting year `ℕ`;
  `get_next_year` ("2024-2025" ↦ "2025-2026") becomes `y ↦ y + 1`.
* Semester codes "S<n>" are embedded as the number `n : ℕ`
  (`NoteService` re-parses the code with the regex `S(\d+)` everywhere).
* A stored `niveau` string "L<k> – YYYY-YYYY" is embedded structurally as
  `Niveau` (level + starting year); every niveau the code writes has this
  shape, so `extract_niveau_from_string` always succeeds on it and the
  string round-trip is dropped from the model.
* Python `dict`s keyed by semester code are embedded as association lists
  `List (ℕ × SemBlock)` with `dict`-assignment update (`setSem`).
-/

/-- A raw cell / document field value (see conventions above). -/
inductive Value where
  | blank : Value
  | num : ℚ → Value
  | text : String → Value
  deriving DecidableEq, Repr

/-- Character-level uppercase of a string (Python `str.upper` on the
ASCII decision keywords used by the code). -/
def upperStr (s : String) : String := ⟨s.data.map Char.toUpper⟩

/-- Python `str.replace(',', '.')` used for locale normalization. -/
def commaToDot (l : List Char) : List Char :=
  l.map fun c => if c = ',' then '.' else c

/-- Strip leading and trailing whitespace (Python `float` ignores it). -/
def trimChars (l : List Char) : List Char :=
  ((l.dropWhile Char.isWhitespace).reverse.dropWhile Char.isWhitespace).reverse

/-- Fold a digit list into a natural number. -/
def digitsVal (l : List Char) : ℕ :=
  l.foldl (fun a c => a * 10 + (c.toNat - 48)) 0

/-- Python `float(s)` restricted to the plain decimal forms that occur in
gradesheets: optional sign, digits, optional single decimal point
(`"12"`, `"12.5"`, `".5"`, `"5."`); anything else fails (`None`).
Exotic float syntax (exponents, `inf`, `nan`) is outside the model. -/
def parseDecimal (s : String) : Option ℚ :=
  let t := trimChars s.data
  let p : ℚ × List Char :=
    match t with
    | '-' :: r => (-1, r)
    | '+' :: r => (1, r)
    | r => (1, r)
  let sg := p.1
  let body := p.2
  let ip := body.takeWhile (fun c => c ≠ '.')
  let rest := body.dropWhile (fun c => c ≠ '.')
  match rest with
  | [] =>
      if ip ≠ [] ∧ ip.all Char.isDigit then some (sg * digitsVal ip) else none
  | _ :: fp =>
      -- `rest` starts with the '.'; the fractional part must contain no
      -- further '.', and at least one of the two parts must be nonempty.
      if (ip ≠ [] ∨ fp ≠ []) ∧ ip.all Char.isDigit ∧ fp.all Char.isDigit
          ∧ fp.all (fun c => c ≠ '.') then
        some (sg * ((digitsVal ip : ℚ) + (digitsVal fp : ℚ) / (10 ^ fp.length)))
      else none

/-- Embeds `NoteService.parse_moyenne` (note_service.py lines 447-456): `None`
maps to 0.0; strings have `','` replaced by `'.'` and are parsed as
floats; unparseable values degrade to 0.0. -/
def parse_moyenne (v : Value) : ℚ :=
  match v with
  | .blank => 0
  | .num q => q
  | .text s => (parseDecimal ⟨commaToDot s.data⟩).getD 0

/-- Floor of a rational, computably (`q.num / q.den` with integer
floor-division by the positive denominator). -/
def qfloor (q : ℚ) : ℤ := q.num / (q.den : ℤ)

/-- Python `int(float)` truncation toward zero. -/
def qtrunc (q : ℚ) : ℤ := if q < 0 then -(qfloor (-q)) else qfloor q

/-- The credit coercion `int(float(str(credit).replace(',', '.')))` used
by the promotion checks (note_service.py lines 141-149 and 191-195).
`str()` of a blank (Python `None`) yields `"None"`, which does not parse,
so the coercion fails there; on numbers it round-trips through `str` and
truncates toward zero; on strings it is comma-normalized then parsed.
`none` means the Python expression raises. -/
def credToInt (v : Value) : Option ℤ :=
  match v with
  | .blank => none
  | .num q => some (qtrunc q)
  | .text s => (parseDecimal ⟨commaToDot s.data⟩).map qtrunc

/-- Academic level L1 < L2 < L3. -/
inductive Level where
  | L1 : Level
  | L2 : Level
  | L3 : Level
  deriving DecidableEq, Repr

/-- The order used by `NoteService.compare_niveaux` (`{"L1":1,"L2":2,"L3":3}`). -/
def levelRank (l : Level) : ℕ :=
  match l with
  | .L1 => 1
  | .L2 => 2
  | .L3 => 3

/-- Embeds `NoteService.compare_niveaux` (lines 33-54): -1 / 0 / 1 as an `Ordering`. -/
def compare_niveaux (a b : Level) : Ordering :=
  if levelRank a < levelRank b then .lt
  else if levelRank b < levelRank a then .gt
  else .eq

/-- Embeds `NoteService.get_niveau_from_semester` (lines 8-31): semester number
1-2 → L1, 3-4 → L2, otherwise L3 (an unparseable code defaults to L1;
well-formed codes are embedded as their number). -/
def get_niveau_from_semester (n : ℕ) : Level :=
  if n ≤ 2 then .L1 else if n ≤ 4 then .L2 else .L3

/-- Embeds `NoteService.get_next_year` (lines 93-110) on the embedded starting
year: "2024-2025" ↦ "2025-2026" is `y ↦ y + 1`. -/
def get_next_year (y : ℕ) : ℕ := y + 1

/-- A parsed niveau tag "L<k> – <year>-<year+1>". -/
structure Niveau where
  level : Level
  year : ℕ
  deriving DecidableEq, Repr

/-- Per-subject grade cells (`notes` dict built in readFile.py lines
114-120): four numeric components plus the tri-state `Capit` indicator
(`none` = Python `None` = blank source cell, distinct from `false`). -/
structure SubjectNotes where
  ncc : Value
  nsn : Value
  nsr : Value
  moy : Value
  capit : Option Value
  deriving DecidableEq, Repr

/-- One subject entry of a module (`matieres[code]`, readFile.py 122-126). -/
structure Matiere where
  name : String
  notes : SubjectNotes
  coef : Value
  deriving DecidableEq, Repr

/-- One module block of a semester (readFile.py lines 159-164). -/
structure ModuleBlock where
  name : String
  matieres : List (String × Matiere)
  moyenne : Value
  ue_valide : Option Value
  deriving DecidableEq, Repr

/-- One semester subtree of a student document. `Option Value` fields are
`none` when the key is absent from the dict (the summary column was not
found in the sheet), which is distinct from a present blank value. -/
structure SemBlock where
  year : ℕ
  isPublic : Bool
  modules : List (String × ModuleBlock)
  moyenne_generale : Option Value
  credit_total : Option Value
  decision : Option String
  deriving DecidableEq, Repr

/-- A persisted student document (`notes_collection` document). The
`_id` is the matricule. `created_at`/`updated_at` timestamps are outside
the model. -/
structure StudentDoc where
  matricule : ℤ
  department : Option Value
  prenom : Option Value
  nom : Option Value
  niveau : Option Niveau
  isPublicGlobale : Bool
  semesters : List (ℕ × SemBlock)
  deriving DecidableEq, Repr

/-- Python dict assignment `doc[k] = b` on the semester map: replace the
existing binding in place or append a fresh one. -/
def setSem (l : List (ℕ × SemBlock)) (k : ℕ) (b : SemBlock) : List (ℕ × SemBlock) :=
  match l with
  | [] => [(k, b)]
  | (k', b') :: t => if k' = k then (k, b) :: t else (k', b') :: setSem t k b

/-- Embeds `student_doc.get("S<n>", {})` followed by the truthiness test: the
semester subtree, or `none` when absent. -/
def getSem (doc : StudentDoc) (n : ℕ) : Option SemBlock :=
  doc.semesters.lookup n

/-- Embeds `dict.get("moyenne_generale", 0)`: the stored value, or the integer
default 0 when the key is absent. -/
def getMoyField (b : SemBlock) : Value := b.moyenne_generale.getD (.num 0)

/-- Embeds `dict.get("credit_total", 0)`. -/
def getCredField (b : SemBlock) : Value := b.credit_total.getD (.num 0)

/-- Embeds `NoteService.check_promotion_to_l2` (lines 112-155): requires S1 and
S2 present; each credit coercion falls back to 0 individually on failure;
promote iff the S1/S2 average is ≥ 10 and the credits sum to ≥ 39. -/
def check_promotion_to_l2 (doc : StudentDoc) : Bool :=
  match getSem doc 1, getSem doc 2 with
  | some s1, some s2 =>
      let m1 := parse_moyenne (getMoyField s1)
      let m2 := parse_moyenne (getMoyField s2)
      let c1 := (credToInt (getCredField s1)).getD 0
      let c2 := (credToInt (getCredField s2)).getD 0
      decide ((m1 + m2) / 2 ≥ 10 ∧ c1 + c2 ≥ 39)
  | _, _ => false

/-- Embeds `NoteService.check_promotion_to_l3` (lines 157-206): requires S1-S4
present; the four credit coercions share one `try`, so any failure makes
the whole check `False`; promote iff the S3/S4 average is ≥ 10,
S1+S2 credits ≥ 39 and S3+S4 credits ≥ 60. -/
def check_promotion_to_l3 (doc : StudentDoc) : Bool :=
  match getSem doc 1, getSem doc 2, getSem doc 3, getSem doc 4 with
  | some s1, some s2, some s3, some s4 =>
      let m3 := parse_moyenne (getMoyField s3)
      let m4 := parse_moyenne (getMoyField s4)
      match credToInt (getCredField s1), credToInt (getCredField s2),
            credToInt (getCredField s3), credToInt (getCredField s4) with
      | some c1, some c2, some c3, some c4 =>
          decide ((m3 + m4) / 2 ≥ 10 ∧ c1 + c2 ≥ 39 ∧ c3 + c4 ≥ 60)
      | _, _, _, _ => false
  | _, _, _, _ => false

/-- Embeds `NoteService.should_update_niveau` (lines 208-284).  S2 and S4 get
special promotion handling that ignores the current niveau entirely; all
other semesters use the non-regressing default logic. -/
def should_update_niveau (current : Option Niveau) (newSem : ℕ) (newYear : ℕ)
    (doc : StudentDoc) : Bool × Niveau :=
  if newSem = 2 then
    if check_promotion_to_l2 doc then (true, ⟨.L2, get_next_year newYear⟩)
    else (true, ⟨.L1, newYear⟩)
  else if newSem = 4 then
    if check_promotion_to_l3 doc then (true, ⟨.L3, get_next_year newYear⟩)
    else (true, ⟨.L2, newYear⟩)
  else
    let newLevel := get_niveau_from_semester newSem
    let newNiveau : Niveau := ⟨newLevel, newYear⟩
    match current with
    | none => (true, newNiveau)
    | some cur =>
        match compare_niveaux cur.level newLevel with
        | .lt => (true, newNiveau)
        | .gt => (false, cur)
        | .eq => if cur.year = newYear then (false, cur) else (true, newNiveau)

/-- A freshly extracted per-student semester record (the value stored in
`students[matricule]` by readFile.py lines 59-68 plus the filled semester
block): identity cells plus exactly one semester subtree. -/
structure ExtractedRec where
  matricule : ℤ
  department : Value
  prenom : Value
  nom : Value
  sem : ℕ
  block : SemBlock
  deriving DecidableEq, Repr

/-- Embeds `NoteService.save_student_notes` (lines 285-411) as a function from
the pre-state of the student's document (`none` when the lookup finds
nothing) and the incoming extracted record to the post-state document.
The extracted record always carries its identity fields and exactly one
semester subtree with a `year`, so the `if field in student_data` and
first-semester-with-year scans resolve statically.  Timestamps and the
Mongo result dict are outside the model. -/
def save_student_notes (existing : Option StudentDoc) (e : ExtractedRec) : StudentDoc :=
  match existing with
  | some doc =>
      -- `$set` of identity fields and of the incoming semester subtree,
      -- then the niveau update computed on the merged view (`temp_doc`).
      let newSems := setSem doc.semesters e.sem e.block
      let temp : StudentDoc :=
        { doc with department := some e.department, prenom := some e.prenom,
                   nom := some e.nom, semesters := newSems }
      let upd := should_update_niveau doc.niveau e.sem e.block.year temp
      { temp with niveau := if upd.1 then some upd.2 else doc.niveau }
  | none =>
      let base : StudentDoc :=
        { matricule := e.matricule, department := some e.department,
          prenom := some e.prenom, nom := some e.nom, niveau := none,
          isPublicGlobale := false, semesters := [(e.sem, e.block)] }
      -- for new documents the computed niveau is written unconditionally
      let upd := should_update_niveau none e.sem e.block.year base
      { base with niveau := some upd.2 }

/-! Row extraction (readFile.py).

The layout detector (module/column discovery over the header rows,
readFile.py lines 19-45 and 70-154) is a per-sheet computation; the
claims under verification target the per-row extraction, so the model
embeds the detector's *output*: each data row is given as the cell
groups the detected layout selects from it (`Row`), and the per-sheet
summary-column discovery is given as presence flags (`Layout`). -/

/-- Embeds `clean_value` (readFile.py lines 10-17): `NaN`/`None` → 0, a string
that is empty after stripping → 0, every other value unchanged (no
parsing is attempted). -/
def clean_value (v : Value) : Value :=
  match v with
  | .blank => .num 0
  | .text s => if trimChars s.data = [] then .num 0 else .text s
  | .num q => .num q

/-- The five cells of one subject block plus the coefficient-row cell. -/
structure SubjectCells where
  code : String
  name : String
  ncc : Value
  nsn : Value
  nsr : Value
  moy : Value
  capit : Value
  coef : Value
  deriving DecidableEq, Repr

/-- The cell groups of one module span in a data row. -/
structure ModuleCells where
  code : String
  name : String
  subjects : List SubjectCells
  moyCell : Value
  ueCell : Value
  deriving DecidableEq, Repr

/-- One data row: the fixed identity columns plus the cell groups the
detected layout selects.  The `matricule` field is the raw identifier
cell exactly as read from the grid: the loop first skips the row when
`pd.isna(matricule)` holds and otherwise runs `int(matricule)`, which
either parses or raises (see `pd_isna` and `parseMatricule`). -/
structure Row where
  department : Value
  matricule : Value
  prenom : Value
  nom : Value
  moduleCells : List ModuleCells
  moyGenCell : Value
  creditCell : Value
  decisionCell : Value
  deriving DecidableEq, Repr

/-- Pandas `pd.isna` on a cell: true exactly on `NaN`/`None` (blank);
numbers and strings - even empty or whitespace strings - are not na. -/
def pd_isna (v : Value) : Bool :=
  match v with
  | .blank => true
  | _ => false

/-- Python `int(s)` on a string: optional surrounding whitespace, an
optional sign and a nonempty digit run; anything else (including a
decimal point) raises, modelled as `none`. -/
def parseIntStr (s : String) : Option ℤ :=
  let t := trimChars s.data
  let p : ℤ × List Char :=
    match t with
    | '-' :: r => (-1, r)
    | '+' :: r => (1, r)
    | r => (1, r)
  if p.2 ≠ [] ∧ p.2.all Char.isDigit then some (p.1 * digitsVal p.2) else none

/-- Python `int(matricule)` on a non-skipped identifier cell
(readFile.py line 59): a number is truncated toward zero, a string is
parsed as an integer, and `none` models the raised `ValueError` that
aborts the whole script.  (A blank cell never reaches this call; the
`pd.isna` test skips the row first.) -/
def parseMatricule (v : Value) : Option ℤ :=
  match v with
  | .blank => none
  | .num q => some (qtrunc q)
  | .text s => parseIntStr s

/-- Which per-sheet summary columns the header scan found
(readFile.py lines 70-85: `moy_general_col`, `credit_total_col`,
`decision_col` are set per sheet, not per row). -/
structure Layout where
  hasMoyCol : Bool
  hasCreditCol : Bool
  hasDecisionCol : Bool
  deriving DecidableEq, Repr

/-- The `notes` dict of one subject (readFile.py lines 114-120): the four
numeric components go through `clean_value`; the `Capit` cell instead
maps blank to Python `None` (`none` here) and keeps any other value. -/
def mkNotes (sc : SubjectCells) : SubjectNotes :=
  { ncc := clean_value sc.ncc, nsn := clean_value sc.nsn,
    nsr := clean_value sc.nsr, moy := clean_value sc.moy,
    capit := match sc.capit with | .blank => none | v => some v }

/-- One `matieres` entry (readFile.py lines 122-126); the coefficient
cell goes through `clean_value` (a blank coefficient also yields 0 via
the `if coef is not None` guard). -/
def mkMatiere (sc : SubjectCells) : Matiere :=
  { name := sc.name, notes := mkNotes sc, coef := clean_value sc.coef }

/-- One module subtree (readFile.py lines 159-164). -/
def mkModule (mc : ModuleCells) : ModuleBlock :=
  { name := mc.name,
    matieres := mc.subjects.map (fun sc => (sc.code, mkMatiere sc)),
    moyenne := clean_value mc.moyCell,
    ue_valide := match mc.ueCell with | .blank => none | v => some v }

/-- The credit-total coercion at extraction time (readFile.py lines
172-179): present, non-`NaN`, non-empty values go through
`int(float(str(v).replace(',', '.')))`, everything else (including a
failed parse) becomes 0. -/
def extractCredit (v : Value) : ℤ :=
  match v with
  | .blank => 0
  | .num q => qtrunc q
  | .text s => ((parseDecimal ⟨commaToDot s.data⟩).map qtrunc).getD 0

/-- The semester subtree built for one data row (readFile.py lines 64-67,
87-164 and 166-182): `year` from the sheet, `isPublic` hard-coded
`False`, the module subtrees, and the three summary fields present only
when the corresponding column was found. -/
def extractBlock (year : ℕ) (layout : Layout) (r : Row) : SemBlock :=
  { year := year, isPublic := false,
    modules := r.moduleCells.map (fun mc => (mc.code, mkModule mc)),
    moyenne_generale := if layout.hasMoyCol then some (clean_value r.moyGenCell) else none,
    credit_total := if layout.hasCreditCol then some (.num (extractCredit r.creditCell)) else none,
    decision := if layout.hasDecisionCol then
        (match r.decisionCell with
         | .blank => none
         | .text s => some s
         | .num _ => none)   -- decision cells are free text; numeric cells are outside the model
      else none }

/-- The whole extracted record of one data row (readFile.py lines 59-68),
given the parsed identifier `m`. -/
def extractRow (sem year : ℕ) (layout : Layout) (r : Row) (m : ℤ) : ExtractedRec :=
  { matricule := m, department := r.department, prenom := r.prenom,
    nom := r.nom, sem := sem, block := extractBlock year layout r }

/-- Python dict assignment on the `students` dict keyed by matricule. -/
def setStudent (l : List (ℤ × ExtractedRec)) (k : ℤ) (v : ExtractedRec) :
    List (ℤ × ExtractedRec) :=
  match l with
  | [] => [(k, v)]
  | (k', v') :: t => if k' = k then (k, v) :: t else (k', v') :: setStudent t k v

/-- The students-extraction loop (readFile.py lines 48-68): walk the data
rows; skip a row when `pd.isna(matricule)` holds; otherwise run
`int(matricule)` and assign `students[int(matricule)]` (a duplicate
matricule overwrites the earlier row's record).  When `int(matricule)`
raises on a non-blank unparseable cell the script dies with no output,
modelled as an overall `none` - the row is *not* skipped. -/
def extractStudents (sem year : ℕ) (layout : Layout) (rows : List Row) :
    Option (List (ℤ × ExtractedRec)) :=
  rows.foldl
    (fun acc r =>
      acc.bind fun cur =>
        if pd_isna r.matricule then some cur
        else
          match parseMatricule r.matricule with
          | some m => some (setStudent cur m (extractRow sem year layout r m))
          | none => none)
    (some [])

/-! Ranking & statistics engine (note_service.py lines 446-911). -/

/-- Round-half-even of a rational to an integer (the behaviour of
Python's `round`; binary-float representation error is outside the
model). -/
def rhe (q : ℚ) : ℤ :=
  let f := qfloor q
  let r := q - f
  if r < 1/2 then f
  else if r > 1/2 then f + 1
  else if f % 2 = 0 then f else f + 1

/-- Python `round(x, 2)`. -/
def round2 (q : ℚ) : ℚ := (rhe (100 * q) : ℚ) / 100

/-- The collection loop of `calculate_moyenne_generale_allsemestre`
(lines 470-477): walk the semester subtrees, and for those that carry a
`moyenne_generale` key append the parsed value when it is strictly
positive. -/
def collectMoys (l : List (ℕ × SemBlock)) : List ℚ :=
  l.foldl
    (fun acc p =>
      match p.2.moyenne_generale with
      | none => acc
      | some v => let m := parse_moyenne v; if m > 0 then acc ++ [m] else acc)
    []

/-- Embeds `NoteService.calculate_moyenne_generale_allsemestre` (lines 458-482):
0.0 with no valid terms, otherwise the mean of the collected values
rounded to two decimal places. -/
def calculate_moyenne_generale_allsemestre (doc : StudentDoc) : ℚ :=
  let sems := collectMoys doc.semesters
  if sems = [] then 0 else round2 (sems.sum / sems.length)

/-- The per-student ranking statistics built at lines 500-522. -/
structure RankInfo where
  matricule : ℤ
  department : Value
  moy : ℚ
  level : Level
  deriving DecidableEq, Repr

/-- Lines 501-522: matricule, `student.get("department", "")`, the
cross-term average, and the niveau level (default L1 when the niveau is
absent or unparseable). -/
def statsOf (doc : StudentDoc) : RankInfo :=
  { matricule := doc.matricule,
    department := doc.department.getD (.text ""),
    moy := calculate_moyenne_generale_allsemestre doc,
    level := (doc.niveau.map (·.level)).getD .L1 }

/-- The per-niveau grouping of lines 524-530 (dict insertion order =
first-occurrence order = `filter`). -/
def byLevel (l : List RankInfo) (lv : Level) : List RankInfo :=
  l.filter (fun s => s.level = lv)

/-- Stable insertion step for Python's stable descending
`sorted(key=moyenne, reverse=True)` (as the `foldr` below inserts each
element into the sorted list of the elements after it): the element
walks past strictly larger keys and stops in front of the first entry
whose key is not larger, so ties keep their original order. -/
def insertDesc (x : RankInfo) : List RankInfo → List RankInfo
  | [] => [x]
  | y :: t => if y.moy > x.moy then y :: insertDesc x t else x :: y :: t

/-- Stable descending sort by `moyenne_allsemestre`. -/
def sortDesc (l : List RankInfo) : List RankInfo :=
  l.foldr insertDesc []

/-- Lines 532-542: the global presentation order — the L3 partition
sorted descending, then L2, then L1. -/
def allSorted (students : List StudentDoc) : List RankInfo :=
  let infos := students.map statsOf
  sortDesc (byLevel infos .L3) ++ sortDesc (byLevel infos .L2) ++ sortDesc (byLevel infos .L1)

/-- Embeds `enumerate(l, start=r)`. -/
def withRanks : ℕ → List α → List (ℕ × α)
  | _, [] => []
  | r, a :: t => (r, a) :: withRanks (r + 1) t

/-- Lines 544-550: the `rang_generall_allsemestre` assignments, as the
ordered trace of dict writes `(matricule, rank)`. -/
def globalRanks (students : List StudentDoc) : List (ℤ × ℕ) :=
  (withRanks 1 (allSorted students)).map (fun p => (p.2.matricule, p.1))

/-- One level-and-department ranking group (lines 557-563). -/
def deptGroup (students : List StudentDoc) (lv : Level) (d : Value) : List RankInfo :=
  (byLevel (students.map statsOf) lv).filter (fun s => s.department = d)

/-- Lines 566-577: the `rang_allsemestre_dep` assignments of one
level-and-department group. -/
def deptRanks (students : List StudentDoc) (lv : Level) (d : Value) : List (ℤ × ℕ) :=
  (withRanks 1 (sortDesc (deptGroup students lv d))).map (fun p => (p.2.matricule, p.1))

/-- The department keys of one level partition.  The code iterates dict
keys in insertion order; `dedup` yields the same key set (each key once),
which is all the downstream lookups depend on. -/
def deptKeys (l : List RankInfo) : List Value :=
  (l.map (·.department)).dedup

/-- All `rang_allsemestre_dep` assignments (lines 552-577), flattened. -/
def allDeptRanks (students : List StudentDoc) : List (ℤ × ℕ) :=
  ([Level.L3, Level.L2, Level.L1].map
    (fun lv => (deptKeys (byLevel (students.map statsOf) lv)).map
      (fun d => deptRanks students lv d))).flatten.flatten

/-- Embeds `NoteService.add_computed_fields` (lines 581-619) with `all_students`
provided: the cross-term average of the given document, and the two rank
fields looked up in `calculate_all_semester_ranks(all_students)`
(0 when the matricule has no entry; 0s when the collection is empty). -/
def add_computed_fields (doc : StudentDoc) (allStudents : List StudentDoc) :
    ℚ × ℕ × ℕ :=
  let moy := calculate_moyenne_generale_allsemestre doc
  match allStudents with
  | [] => (moy, 0, 0)
  | _ =>
      (moy, ((globalRanks allStudents).lookup doc.matricule).getD 0,
            ((allDeptRanks allStudents).lookup doc.matricule).getD 0)

/-- The restricted view produced by `get_student_public_notes`:
`computed = none` models the three computed keys being entirely absent
from the returned dict. -/
structure PublicView where
  matricule : ℤ
  department : Option Value
  prenom : Option Value
  nom : Option Value
  niveau : Option Niveau
  semesters : List (ℕ × SemBlock)
  computed : Option (ℚ × ℕ × ℕ)
  deriving DecidableEq, Repr

/-- Embeds `NoteService.get_student_public_notes` (lines 621-671) for a found
document: identity fields and niveau always; a semester subtree exactly
when `isPublic is True`; the computed fields (calculated on the filtered
document against the whole collection) only when `isPublicGlobale`. -/
def get_student_public_notes (doc : StudentDoc) (allStudents : List StudentDoc) :
    PublicView :=
  let filtered := doc.semesters.filter (fun p => p.2.isPublic)
  { matricule := doc.matricule, department := doc.department,
    prenom := doc.prenom, nom := doc.nom, niveau := doc.niveau,
    semesters := filtered,
    computed :=
      if doc.isPublicGlobale then
        some (add_computed_fields { doc with semesters := filtered } allStudents)
      else none }

/-! Statistics classification (note_service.py lines 829-882). -/

/-- Pass / makeup-session / fail. -/
inductive Outcome where
  | passed : Outcome
  | rattrapage : Outcome
  | failed : Outcome
  deriving DecidableEq, Repr

/-- The average coercion of the statistics loop (lines 849-856):
comma-normalized float parse of strings, `float()` of numbers, and 0.0
when the conversion raises (including on `None`). -/
def stat_moyenne (v : Value) : ℚ :=
  match v with
  | .blank => 0
  | .num q => q
  | .text s => (parseDecimal ⟨commaToDot s.data⟩).getD 0

/-- Embeds `str(decision).upper() if decision else ""` (line 872): `None` and
the empty string are falsy. -/
def decNorm (decision : Option String) : String :=
  match decision with
  | none => ""
  | some s => if s = "" then "" else upperStr s

/-- Is `needle` a prefix of `hay`? -/
def isPrefList : List Char → List Char → Bool
  | [], _ => true
  | _ :: _, [] => false
  | a :: as, b :: bs => a = b && isPrefList as bs

/-- Python's substring test `needle in hay`. -/
def containsSub (needle : List Char) : List Char → Bool
  | [] => needle.isEmpty
  | b :: bs => isPrefList needle (b :: bs) || containsSub needle bs

/-- The classification of one record in `get_statistics` (lines 871-882):
passed when the decision contains "ADMIS" **or** the numeric pass test
(average ≥ 10 and credits ≥ 30) holds; otherwise rattrapage when the
decision contains "RATTRAPAGE" or (average < 10 and credits < 30);
otherwise failed.  The credit total of stored records is an integer (the
extractor coerces it), embedded as `ℤ`. -/
def statistics_classify (moy : Value) (decision : Option String) (credit : ℤ) :
    Outcome :=
  let m := stat_moyenne moy
  let d := decNorm decision
  if containsSub "ADMIS".data d.data || decide (m ≥ 10 ∧ credit ≥ 30) then .passed
  else if containsSub "RATTRAPAGE".data d.data || decide (m < 10 ∧ credit < 30) then
    .rattrapage
  else .failed

/-! Spec-side definitions and concrete documents used by the theorems
below.  The `docW` / `eW` / `rowW` families are concrete persisted
documents, extracted records and data rows used to instantiate theorems
with hypotheses and to exhibit counterexamples. -/

/-- The spec-side reading of the cross-term average: the list of parsed
`moyenne_generale` values over exactly the semesters whose parsed value
is strictly positive. -/
def crossTermMoys (doc : StudentDoc) : List ℚ :=
  doc.semesters.filterMap fun p =>
    p.2.moyenne_generale.bind fun v =>
      if parse_moyenne v > 0 then some (parse_moyenne v) else none

/-- A cell that `clean_value` zeroes: missing/`NaN`/`None`, or a string
that strips to empty. -/
def isBlankCell (v : Value) : Prop :=
  v = .blank ∨ ∃ s, v = .text s ∧ trimChars s.data = []

/-- An empty semester subtree used by the concrete documents below. -/
def emptyBlock (y : ℕ) : SemBlock :=
  { year := y, isPublic := false, modules := [], moyenne_generale := none,
    credit_total := none, decision := none }

/-- A semester subtree with a given average and 30 credits. -/
def moyBlock (y : ℕ) (m : ℚ) : SemBlock :=
  { year := y, isPublic := false, modules := [],
    moyenne_generale := some (.num m), credit_total := some (.num 30),
    decision := none }

def docW4 : StudentDoc :=
  { matricule := 7, department := some (.text "DSI"), prenom := some (.text "A"),
    nom := some (.text "B"), niveau := some ⟨.L2, 2024⟩, isPublicGlobale := false,
    semesters := [(1, emptyBlock 2023), (3, emptyBlock 2024)] }

def eW4 : ExtractedRec :=
  { matricule := 7, department := .text "DSI", prenom := .text "A", nom := .text "B",
    sem := 4, block := emptyBlock 2024 }

def pubBlock : SemBlock := { emptyBlock 2024 with isPublic := true }

def docW10 : StudentDoc :=
  { matricule := 5, department := some (.text "DSI"), prenom := some (.text "A"),
    nom := some (.text "B"), niveau := some ⟨.L2, 2024⟩, isPublicGlobale := false,
    semesters := [(3, pubBlock)] }

def rowW10 : Row :=
  { department := .text "DSI", matricule := .num 5, prenom := .text "A",
    nom := .text "B", moduleCells := [], moyGenCell := .blank, creditCell := .blank,
    decisionCell := .blank }

def eW1a : ExtractedRec :=
  { matricule := 9, department := .text "DSI", prenom := .text "A", nom := .text "B",
    sem := 5, block := emptyBlock 2024 }

def eW1b : ExtractedRec :=
  { matricule := 9, department := .text "DSI", prenom := .text "A", nom := .text "B",
    sem := 2, block := emptyBlock 2025 }

def docW1m : StudentDoc :=
  { matricule := 9, department := some (.text "DSI"), prenom := some (.text "A"),
    nom := some (.text "B"), niveau := some ⟨.L2, 2024⟩, isPublicGlobale := false,
    semesters := [(3, emptyBlock 2024)] }

def eW1m : ExtractedRec :=
  { matricule := 9, department := .text "DSI", prenom := .text "A", nom := .text "B",
    sem := 5, block := emptyBlock 2025 }

def s1W2 : SemBlock :=
  { year := 2024, isPublic := false, modules := [],
    moyenne_generale := some (.num 12), credit_total := some (.num 20),
    decision := none }

def docW2 : StudentDoc :=
  { matricule := 100, department := some (.text "DSI"), prenom := some (.text "A"),
    nom := some (.text "B"), niveau := some ⟨.L1, 2024⟩, isPublicGlobale := false,
    semesters := [(1, s1W2)] }

def eW2 : ExtractedRec :=
  { matricule := 100, department := .text "DSI", prenom := .text "A",
    nom := .text "B", sem := 2,
    block := { year := 2024, isPublic := false, modules := [],
               moyenne_generale := some (.num 8), credit_total := some (.num 15),
               decision := none } }

def docC6 : StudentDoc :=
  { matricule := 11, department := some (.text "DSI"), prenom := some (.text "A"),
    nom := some (.text "B"), niveau := some ⟨.L2, 2025⟩, isPublicGlobale := false,
    semesters := [(1, moyBlock 2023 10), (2, moyBlock 2023 10), (3, moyBlock 2024 11)] }

def rowDup : Row :=
  { department := .text "DSI", matricule := .num 1, prenom := .text "A",
    nom := .text "B", moduleCells := [], moyGenCell := .blank, creditCell := .blank,
    decisionCell := .blank }

/-- A data row whose identifier cell is blank (`NaN`): skipped. -/
def rowBlank : Row :=
  { department := .text "DSI", matricule := .blank, prenom := .text "C",
    nom := .text "D", moduleCells := [], moyGenCell := .blank, creditCell := .blank,
    decisionCell := .blank }

/-- A data row whose identifier cell is non-blank but unparseable:
`int("ABC")` raises and aborts the parse. -/
def rowBad : Row :=
  { department := .text "DSI", matricule := .text "ABC", prenom := .text "E",
    nom := .text "F", moduleCells := [], moyGenCell := .blank, creditCell := .blank,
    decisionCell := .blank }

def docR1 : StudentDoc :=
  { matricule := 1, department := some (.text "DSI"), prenom := some (.text "A"),
    nom := some (.text "B"), niveau := some ⟨.L1, 2024⟩, isPublicGlobale := false,
    semesters := [] }

def docR2 : StudentDoc :=
  { matricule := 2, department := some (.text "DSI"), prenom := some (.text "C"),
    nom := some (.text "D"), niveau := some ⟨.L3, 2024⟩, isPublicGlobale := false,
    semesters := [] }

/-! Helper lemmas about the association-list dict operations, the
promotion state machine, sorting and extraction folds. -/

theorem lookup_setSem_self (l : List (ℕ × SemBlock)) (k : ℕ) (b : SemBlock) :
    (setSem l k b).lookup k = some b := by
  induction l with
  | nil => simp [setSem, List.lookup]
  | cons hd t ih =>
      obtain ⟨k', b'⟩ := hd
      by_cases h : k' = k
      · subst h; simp [setSem, List.lookup]
      · have hb : (k == k') = false := beq_eq_false_iff_ne.mpr (Ne.symm h)
        simp [setSem, h, List.lookup, hb, ih]

theorem lookup_setSem_ne (l : List (ℕ × SemBlock)) (k k' : ℕ) (b : SemBlock)
    (h : k' ≠ k) : (setSem l k b).lookup k' = l.lookup k' := by
  induction l with
  | nil =>
      have hb : (k' == k) = false := beq_eq_false_iff_ne.mpr h
      simp [setSem, List.lookup, hb]
  | cons hd t ih =>
      obtain ⟨k0, b0⟩ := hd
      by_cases h0 : k0 = k
      · subst h0
        have hb : (k' == k0) = false := beq_eq_false_iff_ne.mpr h
        simp [setSem, List.lookup, hb]
      · simp [setSem, h0, List.lookup, ih]

theorem compare_niveaux_lt {a b : Level} (h : compare_niveaux a b = .lt) :
    levelRank a < levelRank b := by
  revert h; cases a <;> cases b <;> decide

theorem compare_niveaux_eq {a b : Level} (h : compare_niveaux a b = .eq) :
    a = b := by
  revert h; cases a <;> cases b <;> decide

theorem should_update_niveau_default (cur : Niveau) (n y : ℕ) (doc : StudentDoc)
    (h2 : n ≠ 2) (h4 : n ≠ 4) :
    levelRank cur.level ≤ levelRank (should_update_niveau (some cur) n y doc).2.level
    ∧ ((should_update_niveau (some cur) n y doc).2.level = cur.level →
        (should_update_niveau (some cur) n y doc).2 = cur ∨
        (should_update_niveau (some cur) n y doc).2 = ⟨cur.level, y⟩) := by
  simp only [should_update_niveau, if_neg h2, if_neg h4]
  rcases hc : compare_niveaux cur.level (get_niveau_from_semester n) with _ | _ | _
  · simp only [hc]
    have hlt := compare_niveaux_lt hc
    exact ⟨le_of_lt hlt, fun he => absurd (he ▸ hlt) (lt_irrefl _)⟩
  · have he := compare_niveaux_eq hc
    by_cases hy : cur.year = y
    · simp [hc, hy]
    · simp only [hc, if_neg hy]
      exact ⟨by rw [← he], fun _ => Or.inr (by rw [← he])⟩
  · simp [hc]

theorem qfloor_eq (q : ℚ) : qfloor q = ⌊q⌋ := by
  rw [qfloor, Rat.floor_def]

theorem collectMoys_go (l : List (ℕ × SemBlock)) (acc : List ℚ) :
    l.foldl
      (fun acc p =>
        match p.2.moyenne_generale with
        | none => acc
        | some v => let m := parse_moyenne v; if m > 0 then acc ++ [m] else acc)
      acc
    = acc ++ l.filterMap (fun p => p.2.moyenne_generale.bind fun v =>
        if parse_moyenne v > 0 then some (parse_moyenne v) else none) := by
  induction l generalizing acc with
  | nil => simp
  | cons hd t ih =>
      obtain ⟨k, b⟩ := hd
      cases hb : b.moyenne_generale with
      | none => simp [List.foldl_cons, hb, ih, List.filterMap_cons]
      | some v =>
          by_cases hm : parse_moyenne v > 0
          · simp [List.foldl_cons, hb, hm, ih, List.filterMap_cons]
          · simp [List.foldl_cons, hb, hm, ih, List.filterMap_cons]

theorem collectMoys_eq (doc : StudentDoc) :
    collectMoys doc.semesters = crossTermMoys doc := by
  simpa [collectMoys, crossTermMoys] using collectMoys_go doc.semesters []

theorem withRanks_map_fst {α : Type} (r : ℕ) (l : List α) :
    (withRanks r l).map Prod.fst = List.range' r l.length := by
  induction l generalizing r with
  | nil => simp [withRanks, List.range']
  | cons a t ih => simp [withRanks, List.range', ih]

theorem withRanks_map_snd {α : Type} (r : ℕ) (l : List α) :
    (withRanks r l).map Prod.snd = l := by
  induction l generalizing r with
  | nil => simp [withRanks]
  | cons a t ih => simp [withRanks, ih]

theorem insertDesc_perm (x : RankInfo) (l : List RankInfo) :
    (insertDesc x l).Perm (x :: l) := by
  induction l with
  | nil => simp [insertDesc]
  | cons y t ih =>
      rw [insertDesc]
      by_cases h : y.moy > x.moy
      · rw [if_pos h]
        exact (ih.cons y).trans (List.Perm.swap x y t)
      · rw [if_neg h]

theorem sortDesc_perm (l : List RankInfo) : (sortDesc l).Perm l := by
  induction l with
  | nil => simp [sortDesc]
  | cons a t ih =>
      have h : sortDesc (a :: t) = insertDesc a (sortDesc t) := rfl
      rw [h]
      exact (insertDesc_perm a (sortDesc t)).trans (ih.cons a)

theorem partition_perm (l : List RankInfo) :
    (byLevel l .L3 ++ byLevel l .L2 ++ byLevel l .L1).Perm l := by
  induction l with
  | nil => simp [byLevel]
  | cons x t ih =>
      rcases hx : x.level with _ | _ | _
      · -- the head has level L1
        have e3 : byLevel (x :: t) .L3 = byLevel t .L3 := by
          simp [byLevel, List.filter_cons, hx]
        have e2 : byLevel (x :: t) .L2 = byLevel t .L2 := by
          simp [byLevel, List.filter_cons, hx]
        have e1 : byLevel (x :: t) .L1 = x :: byLevel t .L1 := by
          simp [byLevel, List.filter_cons, hx]
        rw [e1, e2, e3]
        exact List.perm_middle.trans (ih.cons x)
      · -- the head has level L2
        have e3 : byLevel (x :: t) .L3 = byLevel t .L3 := by
          simp [byLevel, List.filter_cons, hx]
        have e2 : byLevel (x :: t) .L2 = x :: byLevel t .L2 := by
          simp [byLevel, List.filter_cons, hx]
        have e1 : byLevel (x :: t) .L1 = byLevel t .L1 := by
          simp [byLevel, List.filter_cons, hx]
        rw [e1, e2, e3]
        exact (List.Perm.append_right (byLevel t Level.L1)
          (@List.perm_middle _ x (byLevel t Level.L3)
            (byLevel t Level.L2))).trans (ih.cons x)
      · -- the head has level L3
        have e3 : byLevel (x :: t) .L3 = x :: byLevel t .L3 := by
          simp [byLevel, List.filter_cons, hx]
        have e2 : byLevel (x :: t) .L2 = byLevel t .L2 := by
          simp [byLevel, List.filter_cons, hx]
        have e1 : byLevel (x :: t) .L1 = byLevel t .L1 := by
          simp [byLevel, List.filter_cons, hx]
        rw [e1, e2, e3]
        exact ih.cons x

theorem allSorted_perm (students : List StudentDoc) :
    (allSorted students).Perm (students.map statsOf) := by
  exact List.Perm.trans
    (((sortDesc_perm (byLevel (students.map statsOf) .L3)).append
        (sortDesc_perm (byLevel (students.map statsOf) .L2))).append
      (sortDesc_perm (byLevel (students.map statsOf) .L1)))
    (partition_perm (students.map statsOf))

theorem setStudent_keys_mem (l : List (ℤ × ExtractedRec)) (k : ℤ) (v : ExtractedRec)
    (a : ℤ) : a ∈ (setStudent l k v).map Prod.fst ↔
      (a = k ∨ a ∈ l.map Prod.fst) := by
  induction l with
  | nil => simp [setStudent]
  | cons hd t ih =>
      obtain ⟨k0, v0⟩ := hd
      by_cases h0 : k0 = k
      · subst h0
        simp only [setStudent, if_pos rfl, List.map_cons, List.mem_cons]
        simp only [eq_self_iff_true, if_true, List.map_cons, List.mem_cons]
        tauto
      · simp only [setStudent, if_neg h0, List.map_cons, List.mem_cons, ih]
        tauto

theorem setStudent_keys_nodup (l : List (ℤ × ExtractedRec)) (k : ℤ)
    (v : ExtractedRec) (h : (l.map Prod.fst).Nodup) :
    ((setStudent l k v).map Prod.fst).Nodup := by
  induction l with
  | nil => simp [setStudent]
  | cons hd t ih =>
      obtain ⟨k0, v0⟩ := hd
      simp only [List.map_cons, List.nodup_cons] at h
      by_cases h0 : k0 = k
      · subst h0
        simp only [setStudent, if_pos rfl, List.map_cons]
        exact List.nodup_cons.mpr h
      · simp only [setStudent, if_neg h0, List.map_cons]
        refine List.nodup_cons.mpr ⟨?_, ih h.2⟩
        rw [setStudent_keys_mem]
        push_neg
        exact ⟨h0, h.1⟩

theorem extract_go (sem year : ℕ) (layout : Layout) (rows : List Row)
    (l : List (ℤ × ExtractedRec))
    (hok : ∀ r ∈ rows, pd_isna r.matricule = false →
        (parseMatricule r.matricule).isSome)
    (hnd : (l.map Prod.fst).Nodup) :
    ∃ l', rows.foldl
        (fun acc r =>
          acc.bind fun cur =>
            if pd_isna r.matricule then some cur
            else
              match parseMatricule r.matricule with
              | some m => some (setStudent cur m (extractRow sem year layout r m))
              | none => none)
        (some l) = some l'
      ∧ (l'.map Prod.fst).Nodup
      ∧ ∀ a, a ∈ l'.map Prod.fst ↔
          (a ∈ l.map Prod.fst ∨ ∃ r ∈ rows, parseMatricule r.matricule = some a) := by
  induction rows generalizing l with
  | nil => exact ⟨l, rfl, hnd, by simp⟩
  | cons r rs ih =>
      have hok_rs : ∀ r' ∈ rs, pd_isna r'.matricule = false →
          (parseMatricule r'.matricule).isSome :=
        fun r' h => hok r' (List.mem_cons_of_mem _ h)
      by_cases hna : pd_isna r.matricule = true
      · -- the identifier cell is blank: the row is skipped
        have hblank : r.matricule = .blank := by
          revert hna; cases r.matricule <;> simp [pd_isna]
        have hpm : parseMatricule r.matricule = none := by rw [hblank]; rfl
        rcases ih l hok_rs hnd with ⟨l', hfold, hnod, hmem⟩
        have hstep : ((some l).bind fun cur =>
            if pd_isna r.matricule then some cur
            else
              match parseMatricule r.matricule with
              | some m => some (setStudent cur m (extractRow sem year layout r m))
              | none => none) = some l := by
          simp [Option.bind, hna]
        refine ⟨l', ?_, hnod, ?_⟩
        · rw [List.foldl_cons, hstep]
          exact hfold
        · intro a
          rw [hmem a]
          constructor
          · rintro (h | ⟨r', hr', h2⟩)
            · exact Or.inl h
            · exact Or.inr ⟨r', List.mem_cons_of_mem _ hr', h2⟩
          · rintro (h | ⟨r', hr', h2⟩)
            · exact Or.inl h
            · rcases List.mem_cons.mp hr' with rfl | hr''
              · rw [hpm] at h2; cases h2
              · exact Or.inr ⟨r', hr'', h2⟩
      · -- non-blank: the hypothesis rules out the raising parse
        have hna' : pd_isna r.matricule = false := by simpa using hna
        rcases Option.isSome_iff_exists.mp
            (hok r (List.mem_cons_self _ _) hna') with ⟨m, hm⟩
        rcases ih (setStudent l m (extractRow sem year layout r m)) hok_rs
            (setStudent_keys_nodup _ _ _ hnd) with ⟨l', hfold, hnod, hmem⟩
        have hstep : ((some l).bind fun cur =>
            if pd_isna r.matricule then some cur
            else
              match parseMatricule r.matricule with
              | some m => some (setStudent cur m (extractRow sem year layout r m))
              | none => none)
            = some (setStudent l m (extractRow sem year layout r m)) := by
          simp [Option.bind, hna', hm]
        refine ⟨l', ?_, hnod, ?_⟩
        · rw [List.foldl_cons, hstep]
          exact hfold
        · intro a
          rw [hmem a, setStudent_keys_mem]
          constructor
          · rintro ((rfl | h) | ⟨r', hr', h2⟩)
            · exact Or.inr ⟨r, List.mem_cons_self _ _, hm⟩
            · exact Or.inl h
            · exact Or.inr ⟨r', List.mem_cons_of_mem _ hr', h2⟩
          · rintro (h | ⟨r', hr', h2⟩)
            · exact Or.inl (Or.inr h)
            · rcases List.mem_cons.mp hr' with rfl | hr''
              · rw [hm] at h2
                exact Or.inl (Or.inl (Option.some.inj h2).symm)
              · exact Or.inr ⟨r', hr'', h2⟩

theorem clean_value_blank (v : Value) (h : isBlankCell v) :
    clean_value v = .num 0 := by
  rcases h with rfl | ⟨s, rfl, hs⟩
  · rfl
  · simp [clean_value, hs]

theorem clean_value_pass (v : Value) (h : ¬ isBlankCell v) : clean_value v = v := by
  cases v with
  | blank => exact absurd (Or.inl rfl) h
  | num q => rfl
  | text s =>
      by_cases hs : trimChars s.data = []
      · exact absurd (Or.inr ⟨s, rfl, hs⟩) h
      · simp [clean_value, hs]

/-! Claim theorems.  Each claim of the specification is settled by the
theorem(s) below carrying its identifier. -/

/-- Claim C1, counterexample: the level component of `niveau` can
decrease across merges.  A student whose record was promoted to L3 by
ingesting S5 is demoted to L1 by a subsequent S2 ingestion (the S2
branch of `should_update_niveau` ignores the current niveau, and its
promotion check fails because S1 is absent). -/
theorem promotion_monotonicity_cex :
    (save_student_notes none eW1a).niveau = some ⟨.L3, 2024⟩ ∧
    (save_student_notes (some (save_student_notes none eW1a)) eW1b).niveau
      = some ⟨.L1, 2025⟩ ∧
    levelRank .L1 < levelRank .L3 := by decide

/-- Claim C1, amended: for ingestions of any semester other than S2 and
S4, the stored niveau level never decreases, and the only possible
change at an equal level is re-tagging with the incoming year (S2 and S4
ingestions instead set the level unconditionally to L1/L2 resp. L2/L3
and can decrease it, as the counterexample shows). -/
theorem promotion_monotonic_amended (doc : StudentDoc) (e : ExtractedRec)
    (nv : Niveau) (hniv : doc.niveau = some nv) (h2 : e.sem ≠ 2) (h4 : e.sem ≠ 4) :
    ∃ nv', (save_student_notes (some doc) e).niveau = some nv' ∧
      levelRank nv.level ≤ levelRank nv'.level ∧
      (nv'.level = nv.level → nv' = nv ∨ nv' = ⟨nv.level, e.block.year⟩) := by
  have hres : (save_student_notes (some doc) e).niveau =
      (if (should_update_niveau doc.niveau e.sem e.block.year
            { doc with
                department := some e.department, prenom := some e.prenom,
                nom := some e.nom,
                semesters := setSem doc.semesters e.sem e.block }).1
       then some (should_update_niveau doc.niveau e.sem e.block.year
            { doc with
                department := some e.department, prenom := some e.prenom,
                nom := some e.nom,
                semesters := setSem doc.semesters e.sem e.block }).2
       else doc.niveau) := rfl
  revert hres
  generalize ({ doc with
      department := some e.department, prenom := some e.prenom,
      nom := some e.nom,
      semesters := setSem doc.semesters e.sem e.block } : StudentDoc) = T
  intro hres
  rw [hniv] at hres
  rcases should_update_niveau_default nv e.sem e.block.year T h2 h4 with ⟨hle, heq⟩
  by_cases hupd : (should_update_niveau (some nv) e.sem e.block.year T).1
  · exact ⟨_, by rw [hres, if_pos hupd], hle, heq⟩
  · exact ⟨nv, by rw [hres, if_neg hupd], le_refl _, fun _ => Or.inl rfl⟩

/-- Claim C1, witness: the amended theorem applied to a concrete L2
record ingesting S5. -/
theorem promotion_monotonic_amended_witness :
    docW1m.niveau = some ⟨.L2, 2024⟩ ∧ eW1m.sem ≠ 2 ∧ eW1m.sem ≠ 4 ∧
    ∃ nv', (save_student_notes (some docW1m) eW1m).niveau = some nv' ∧
      levelRank Level.L2 ≤ levelRank nv'.level ∧
      (nv'.level = Level.L2 → nv' = ⟨.L2, 2024⟩ ∨ nv' = ⟨.L2, eW1m.block.year⟩) :=
  ⟨rfl, by decide, by decide,
    promotion_monotonic_amended docW1m eW1m ⟨.L2, 2024⟩ rfl (by decide) (by decide)⟩

/-- Claim C2: merging an S2 extraction into a record whose S1 block is
present sets the niveau to L2 tagged with the year following the S2 year
exactly when the parsed S1/S2 average is at least 10 and the coerced
credit totals sum to at least 39; otherwise it sets L1 tagged with the
S2 year. -/
theorem s2_promotion_rule (doc : StudentDoc) (e : ExtractedRec) (s1 : SemBlock)
    (hsem : e.sem = 2) (hs1 : getSem doc 1 = some s1) :
    (((parse_moyenne (getMoyField s1) + parse_moyenne (getMoyField e.block)) / 2 ≥ 10
        ∧ (credToInt (getCredField s1)).getD 0
            + (credToInt (getCredField e.block)).getD 0 ≥ 39) →
      (save_student_notes (some doc) e).niveau
        = some ⟨.L2, get_next_year e.block.year⟩)
    ∧ (¬((parse_moyenne (getMoyField s1) + parse_moyenne (getMoyField e.block)) / 2 ≥ 10
        ∧ (credToInt (getCredField s1)).getD 0
            + (credToInt (getCredField e.block)).getD 0 ≥ 39) →
      (save_student_notes (some doc) e).niveau = some ⟨.L1, e.block.year⟩) := by
  rcases e with ⟨em, ed, ep, en, esem, eblk⟩
  simp only at hsem
  subst hsem
  have hT1 : getSem
      { doc with
          department := some ed, prenom := some ep, nom := some en,
          semesters := setSem doc.semesters 2 eblk } 1 = some s1 := by
    show (setSem doc.semesters 2 eblk).lookup 1 = some s1
    rw [lookup_setSem_ne _ _ _ _ (by decide)]
    exact hs1
  have hT2 : getSem
      { doc with
          department := some ed, prenom := some ep, nom := some en,
          semesters := setSem doc.semesters 2 eblk } 2 = some eblk := by
    show (setSem doc.semesters 2 eblk).lookup 2 = some eblk
    exact lookup_setSem_self _ _ _
  have hcheck : check_promotion_to_l2
      { doc with
          department := some ed, prenom := some ep, nom := some en,
          semesters := setSem doc.semesters 2 eblk } =
      decide ((parse_moyenne (getMoyField s1) + parse_moyenne (getMoyField eblk)) / 2 ≥ 10
        ∧ (credToInt (getCredField s1)).getD 0
            + (credToInt (getCredField eblk)).getD 0 ≥ 39) := by
    rw [check_promotion_to_l2, hT1, hT2]
  have hniv2 : (save_student_notes (some doc)
      ⟨em, ed, ep, en, 2, eblk⟩).niveau =
      (if check_promotion_to_l2
          { doc with
              department := some ed, prenom := some ep, nom := some en,
              semesters := setSem doc.semesters 2 eblk }
       then some ⟨.L2, get_next_year eblk.year⟩ else some ⟨.L1, eblk.year⟩) := by
    show (if (should_update_niveau doc.niveau 2 eblk.year _).1
          then some (should_update_niveau doc.niveau 2 eblk.year _).2
          else doc.niveau) = _
    rw [should_update_niveau]
    by_cases hc : check_promotion_to_l2
        { doc with
            department := some ed, prenom := some ep, nom := some en,
            semesters := setSem doc.semesters 2 eblk } <;> simp [hc]
  constructor
  · intro hcond
    rw [hniv2, if_pos]
    rw [hcheck]
    exact decide_eq_true_eq.mpr hcond
  · intro hcond
    rw [hniv2, if_neg]
    rw [hcheck]
    simp only [decide_eq_true_eq]
    exact hcond

/-- Claim C2, witness: the spec's failing-promotion scenario — S1 with
average 12 and 20 credits, then S2 with average 8 and 15 credits: the
average is exactly 10 but the 35 combined credits are below 39, so the
record stays L1 tagged with the S2 year. -/
theorem s2_promotion_rule_witness :
    eW2.sem = 2 ∧ getSem docW2 1 = some s1W2 ∧
      (save_student_notes (some docW2) eW2).niveau = some ⟨.L1, 2024⟩ :=
  ⟨rfl, rfl, (s2_promotion_rule docW2 eW2 s1W2 rfl rfl).2 (by
    simp only [s1W2, eW2, getMoyField, getCredField, Option.getD, parse_moyenne,
      credToInt, qtrunc, qfloor]
    norm_num)⟩

/-- Claim C3, counterexample: a record whose decision text contains the
makeup keyword "RATTRAPAGE" (and no admission keyword) but satisfies the
numeric pass test (average 15 ≥ 10, credits 35 ≥ 30) is classified
passed, not rattrapage — the numeric pass fallback sits in the first
branch, before the makeup-keyword test. -/
theorem rattrapage_keyword_not_priority_cex :
    statistics_classify (.num 15) (some "RATTRAPAGE") 35 = Outcome.passed ∧
      statistics_classify (.num 15) (some "RATTRAPAGE") 35 ≠ Outcome.rattrapage := by
  decide

/-- Claim C3, amended: a record whose decision contains the makeup
keyword and no admission keyword is classified rattrapage exactly when
it does not satisfy the numeric pass test (average ≥ 10 and
credits ≥ 30); when it does, the numeric pass test wins and the record
is classified passed. -/
theorem rattrapage_numeric_priority (moy : Value) (decision : Option String)
    (credit : ℤ)
    (hr : containsSub "RATTRAPAGE".data (decNorm decision).data = true)
    (ha : containsSub "ADMIS".data (decNorm decision).data = false) :
    statistics_classify moy decision credit =
      (if stat_moyenne moy ≥ 10 ∧ credit ≥ 30 then Outcome.passed
       else Outcome.rattrapage) := by
  simp only [statistics_classify, ha, hr, Bool.false_or, Bool.true_or]
  by_cases hc : stat_moyenne moy ≥ 10 ∧ credit ≥ 30
  · simp [hc]
  · simp [hc]

/-- Claim C3, witness: the amended theorem applied at average 15 and
credits 35 with decision "RATTRAPAGE". -/
theorem rattrapage_numeric_priority_witness :
    containsSub "RATTRAPAGE".data (decNorm (some "RATTRAPAGE")).data = true ∧
    containsSub "ADMIS".data (decNorm (some "RATTRAPAGE")).data = false ∧
    statistics_classify (.num 15) (some "RATTRAPAGE") 35 =
      (if stat_moyenne (.num 15) ≥ 10 ∧ (35 : ℤ) ≥ 30 then Outcome.passed
       else Outcome.rattrapage) :=
  ⟨by decide, by decide,
    rattrapage_numeric_priority (.num 15) (some "RATTRAPAGE") 35 (by decide) (by decide)⟩

/-- Claim C4: merging an extracted record into an existing document
stores the incoming block wholesale under the incoming semester key and
leaves the subtree of every other semester key unchanged. -/
theorem merge_replaces_semester_wholesale (doc : StudentDoc) (e : ExtractedRec) :
    getSem (save_student_notes (some doc) e) e.sem = some e.block ∧
    ∀ k, k ≠ e.sem → getSem (save_student_notes (some doc) e) k = getSem doc k := by
  constructor
  · simp [save_student_notes, getSem, lookup_setSem_self]
  · intro k hk
    simp [save_student_notes, getSem, lookup_setSem_ne _ _ _ _ hk]

/-- Claim C4, witness: merging an S4 extraction into a document holding
S1 and S3 leaves the S3 subtree untouched. -/
theorem merge_replaces_semester_wholesale_witness :
    (3 : ℕ) ≠ eW4.sem ∧
      getSem (save_student_notes (some docW4) eW4) 3 = getSem docW4 3 :=
  ⟨by decide, (merge_replaces_semester_wholesale docW4 eW4).2 3 (by decide)⟩

/-- Claim C5: the public projection always carries the identity fields
and the niveau of the document, contains a semester binding exactly when
that binding exists in the document with `isPublic` true, and carries
the computed cross-term triple (average, global rank, department rank)
exactly when `isPublicGlobale` is true — when it is false the triple is
absent (`none`), not zeroed. -/
theorem public_projection_spec (doc : StudentDoc) (allStudents : List StudentDoc) :
    (get_student_public_notes doc allStudents).matricule = doc.matricule ∧
    (get_student_public_notes doc allStudents).department = doc.department ∧
    (get_student_public_notes doc allStudents).prenom = doc.prenom ∧
    (get_student_public_notes doc allStudents).nom = doc.nom ∧
    (get_student_public_notes doc allStudents).niveau = doc.niveau ∧
    (∀ k b, (k, b) ∈ (get_student_public_notes doc allStudents).semesters ↔
        ((k, b) ∈ doc.semesters ∧ b.isPublic = true)) ∧
    ((get_student_public_notes doc allStudents).computed.isSome ↔
        doc.isPublicGlobale = true) := by
  refine ⟨rfl, rfl, rfl, rfl, rfl, ?_, ?_⟩
  · intro k b
    simp [get_student_public_notes, List.mem_filter]
  · by_cases h : doc.isPublicGlobale <;> simp [get_student_public_notes, h]

/-- Claim C6, counterexample: for a record with three semesters of
averages 10, 10 and 11 the code returns `round(31/3, 2) = 10.33`, not
the exact arithmetic mean `31/3`. -/
theorem crossterm_average_cex :
    calculate_moyenne_generale_allsemestre docC6 ≠ ((10 : ℚ) + 10 + 11) / 3 := by
  have h : calculate_moyenne_generale_allsemestre docC6 = 1033 / 100 := by
    norm_num [calculate_moyenne_generale_allsemestre, docC6, collectMoys, moyBlock,
      parse_moyenne, round2, rhe, qfloor_eq, List.foldl_cons, List.foldl_nil,
      List.sum_cons, List.sum_nil, List.length_cons]
    simp
  rw [h]
  norm_num

/-- Claim C6, amended: the cross-term average equals the arithmetic mean
of the parsed `moyenne_generale` values over exactly the semesters whose
parsed value is strictly positive, **rounded to two decimal places**
(half-to-even), and equals 0 when no semester has a strictly positive
value. -/
theorem crossterm_average_amended (doc : StudentDoc) :
    calculate_moyenne_generale_allsemestre doc =
      (if crossTermMoys doc = [] then 0
       else round2 ((crossTermMoys doc).sum / (crossTermMoys doc).length)) := by
  simp only [calculate_moyenne_generale_allsemestre, collectMoys_eq]

/-- Claim C7: for a collection with distinct matricules, the trace of
global rank assignments carries the rank values 1..N in order (hence the
set of assigned global ranks is exactly {1,...,N}), assigns each
matricule exactly once, and within every level-plus-department group of
M records the department rank values are exactly 1..M. -/
theorem ranks_dense_and_complete (students : List StudentDoc)
    (hnd : (students.map (fun d => d.matricule)).Nodup) :
    (globalRanks students).map Prod.snd = List.range' 1 students.length
    ∧ ((globalRanks students).map Prod.fst).Perm
        (students.map (fun d => d.matricule))
    ∧ ((globalRanks students).map Prod.fst).Nodup
    ∧ ∀ (lv : Level) (d : Value),
        (deptRanks students lv d).map Prod.snd
          = List.range' 1 (deptGroup students lv d).length := by
  have hlen : (allSorted students).length = students.length :=
    (allSorted_perm students).length_eq.trans (List.length_map _ _)
  have hperm : ((globalRanks students).map Prod.fst).Perm
      (students.map (fun d => d.matricule)) := by
    rw [globalRanks, List.map_map]
    have h1 : (Prod.fst ∘ fun p : ℕ × RankInfo => (p.2.matricule, p.1))
        = (fun s : RankInfo => s.matricule) ∘ Prod.snd := rfl
    rw [h1, ← List.map_map, withRanks_map_snd]
    have h2 : (students.map statsOf).map (fun s : RankInfo => s.matricule)
        = students.map (fun d => d.matricule) := by
      rw [List.map_map]; rfl
    exact (h2 ▸ (allSorted_perm students).map (fun s : RankInfo => s.matricule))
  refine ⟨?_, hperm, hnd.perm hperm.symm, ?_⟩
  · rw [globalRanks, List.map_map]
    have h : (Prod.snd ∘ fun p : ℕ × RankInfo => (p.2.matricule, p.1))
        = Prod.fst := rfl
    rw [h, withRanks_map_fst, hlen]
  · intro lv d
    rw [deptRanks, List.map_map]
    have h : (Prod.snd ∘ fun p : ℕ × RankInfo => (p.2.matricule, p.1))
        = Prod.fst := rfl
    rw [h, withRanks_map_fst, (sortDesc_perm (deptGroup students lv d)).length_eq]

/-- Claim C7, witness: the theorem applied to a two-student collection
with distinct matricules. -/
theorem ranks_dense_and_complete_witness :
    ([docR1, docR2].map (fun d => d.matricule)).Nodup ∧
    (globalRanks [docR1, docR2]).map Prod.snd = List.range' 1 2 ∧
    (deptRanks [docR1, docR2] .L1 (.text "DSI")).map Prod.snd
      = List.range' 1 (deptGroup [docR1, docR2] .L1 (.text "DSI")).length :=
  ⟨by decide, (ranks_dense_and_complete [docR1, docR2] (by decide)).1,
    (ranks_dense_and_complete [docR1, docR2] (by decide)).2.2.2 .L1 (.text "DSI")⟩

/-- Claim C8, counterexample: the claimed count equality and its
skip parenthetical both fail.  Two data rows carrying the same non-blank
matricule produce one record, not two (the `students` dict is keyed by
matricule); and a row whose identifier cell is non-blank but unparseable
is not skipped - `int(matricule)` raises and the whole parse aborts,
producing no records at all. -/
theorem extracted_records_count_cex :
    (extractStudents 3 2024 ⟨true, true, true⟩ [rowDup, rowDup]).map List.length
        = some 1 ∧
    ([rowDup, rowDup].filter (fun r => !pd_isna r.matricule)).length = 2 ∧
    pd_isna rowBad.matricule = false ∧
    extractStudents 3 2024 ⟨true, true, true⟩ [rowBad] = none := by
  decide

/-- Claim C8, amended: for a grid whose non-blank identifier cells all
parse as integers, the extraction succeeds and the number of produced
per-student semester records equals the number of **distinct**
identifiers among the data rows with a non-blank identifier cell
(records are keyed by matricule, so a later duplicate row overwrites the
earlier record).  Rows with a blank identifier are skipped; a non-blank
unparseable identifier is not skipped - `int(matricule)` raises and the
parse aborts with no records produced. -/
theorem extracted_records_count_amended (sem year : ℕ) (layout : Layout)
    (rows : List Row)
    (hok : ∀ r ∈ rows, pd_isna r.matricule = false →
        (parseMatricule r.matricule).isSome) :
    ∃ l, extractStudents sem year layout rows = some l ∧
      l.length = ((rows.filterMap (fun r => parseMatricule r.matricule)).dedup).length := by
  rcases extract_go sem year layout rows [] hok (by simp) with ⟨l, hfold, hnod, hmem⟩
  refine ⟨l, by rw [extractStudents]; exact hfold, ?_⟩
  have hmem' : ∀ a, a ∈ l.map Prod.fst ↔
      a ∈ (rows.filterMap (fun r => parseMatricule r.matricule)).dedup := by
    intro a
    rw [hmem a]
    simp [List.mem_dedup, List.mem_filterMap]
  have hperm := (List.perm_ext_iff_of_nodup hnod (List.nodup_dedup _)).mpr hmem'
  calc l.length = (l.map Prod.fst).length := (List.length_map _ _).symm
    _ = _ := hperm.length_eq

/-- Claim C8, witness: the amended theorem applied to two duplicate rows
plus one blank-identifier row - every non-blank identifier parses, one
record comes out, and the distinct-identifier count is one. -/
theorem extracted_records_count_amended_witness :
    (∀ r ∈ [rowDup, rowDup, rowBlank], pd_isna r.matricule = false →
        (parseMatricule r.matricule).isSome) ∧
    ∃ l, extractStudents 3 2024 ⟨true, true, true⟩ [rowDup, rowDup, rowBlank]
          = some l ∧
      l.length = (([rowDup, rowDup, rowBlank].filterMap
          (fun r => parseMatricule r.matricule)).dedup).length :=
  ⟨by decide,
    extracted_records_count_amended 3 2024 ⟨true, true, true⟩
      [rowDup, rowDup, rowBlank] (by decide)⟩

/-- Claim C9, counterexample: an unparseable non-blank grade cell is not
normalized to 0 — `clean_value` passes the text through unchanged. -/
theorem normalizer_cex :
    (mkNotes { code := "M1", name := "Sub", ncc := .text "ABS", nsn := .blank,
               nsr := .blank, moy := .blank, capit := .blank,
               coef := .blank }).ncc ≠ .num 0 := by
  decide

/-- Claim C9, amended: a blank (missing/`NaN`/`None` or
whitespace-only-string) cell is normalized to 0 for each of the four
grade components and the coefficient, any non-blank value — including
unparseable text — passes through unchanged, and a blank
capitalization/validation indicator cell is normalized to the tri-state
unknown value `none`, which differs from every present value (in
particular from 0 and from false). -/
theorem normalizer_amended (sc : SubjectCells) (mc : ModuleCells) :
    (isBlankCell sc.ncc → (mkNotes sc).ncc = .num 0)
    ∧ (isBlankCell sc.nsn → (mkNotes sc).nsn = .num 0)
    ∧ (isBlankCell sc.nsr → (mkNotes sc).nsr = .num 0)
    ∧ (isBlankCell sc.moy → (mkNotes sc).moy = .num 0)
    ∧ (isBlankCell sc.coef → (mkMatiere sc).coef = .num 0)
    ∧ (∀ v, ¬ isBlankCell v → clean_value v = v)
    ∧ (sc.capit = .blank →
        (mkNotes sc).capit = none ∧ ∀ w : Value, (none : Option Value) ≠ some w)
    ∧ (mc.ueCell = .blank → (mkModule mc).ue_valide = none) := by
  refine ⟨fun h => clean_value_blank _ h, fun h => clean_value_blank _ h,
    fun h => clean_value_blank _ h, fun h => clean_value_blank _ h,
    fun h => clean_value_blank _ h, fun v h => clean_value_pass v h,
    fun h => ⟨?_, fun w hw => by cases hw⟩, fun h => ?_⟩
  · simp [mkNotes, h]
  · simp [mkModule, h]

/-- Claim C9, witness: the amended theorem applied to a subject whose
grade cell is a whitespace-only string and whose indicator cell is
blank. -/
theorem normalizer_amended_witness :
    isBlankCell (Value.text "  ") ∧
    (mkNotes { code := "M1", name := "Sub", ncc := .text "  ", nsn := .blank,
               nsr := .blank, moy := .blank, capit := .blank,
               coef := .blank }).ncc = .num 0 ∧
    (mkNotes { code := "M1", name := "Sub", ncc := .text "  ", nsn := .blank,
               nsr := .blank, moy := .blank, capit := .blank,
               coef := .blank }).capit = none :=
  ⟨Or.inr ⟨"  ", rfl, by decide⟩,
    (normalizer_amended _ ⟨"M", "Mod", [], .blank, .blank⟩).1
      (Or.inr ⟨"  ", rfl, by decide⟩),
    ((normalizer_amended _ ⟨"M", "Mod", [], .blank, .blank⟩).2.2.2.2.2.2.1 rfl).1⟩

/-- Claim C10: re-ingesting a semester that the record already holds
with `isPublic = true` replaces the subtree with the freshly extracted
one, whose `isPublic` is hard-coded false — the merge leaves the
semester with `isPublic = false`, silently revoking the granted
visibility. -/
theorem reupload_revokes_visibility (doc : StudentDoc) (r : Row) (m : ℤ)
    (sem year : ℕ) (layout : Layout) (b : SemBlock)
    (_hprev : getSem doc sem = some b) (_hpub : b.isPublic = true) :
    ∃ b', getSem (save_student_notes (some doc) (extractRow sem year layout r m)) sem
            = some b' ∧ b'.isPublic = false := by
  refine ⟨extractBlock year layout r, ?_, rfl⟩
  simp [save_student_notes, getSem, extractRow, lookup_setSem_self]

/-- Claim C10, witness: a concrete document holding a public S3 loses
the flag when S3 is re-uploaded. -/
theorem reupload_revokes_visibility_witness :
    getSem docW10 3 = some pubBlock ∧ pubBlock.isPublic = true ∧
      ∃ b', getSem (save_student_notes (some docW10)
              (extractRow 3 2025 ⟨true, true, true⟩ rowW10 5)) 3
            = some b' ∧ b'.isPublic = false :=
  ⟨rfl, rfl, reupload_revokes_visibility docW10 rowW10 5 3 2025 ⟨true, true, true⟩
    pubBlock rfl rfl⟩
